import Mathlib

/-
Verification of the insights/analytics engine of the Umbra backend.

The Python services (stats_service.py, insights_service.py,
ai_coaching_service.py) are shallowly embedded below.  Conventions:

* Python ints are modelled as Nat/Int; Python floats are modelled as exact
  rationals (Rat), with round() modelled as round-half-even on rationals.
* Calendar dates are modelled as integers (day numbers); timestamps as
  integers (seconds); the date of a timestamp is its floor-division by 86400.
* SQL queries are modelled as list filters/folds over the rows they read.
* Fallible operations (the LLM provider, the redis store) are modelled with
  Except/Option values; an exception that a function does not catch is an
  Except.error result.
-/

/-- Helper: Python round() to the nearest integer, rounding halves to even. -/
def roundHalfEven (q : ℚ) : ℤ :=
  let f : ℤ := ⌊q⌋
  let r : ℚ := q - (f : ℚ)
  if r < 1 / 2 then f
  else if 1 / 2 < r then f + 1
  else if f % 2 = 0 then f else f + 1

/-- Helper: Python round(x, 3). -/
def round3 (q : ℚ) : ℚ := (roundHalfEven (q * 1000) : ℚ) / 1000

/-- Helper: Python round(x, 1). -/
def round1 (q : ℚ) : ℚ := (roundHalfEven (q * 10) : ℚ) / 10

/-- Helper: Python int() on a float value (truncation toward zero). -/
def pyInt (q : ℚ) : ℤ := q.num.tdiv (q.den : ℤ)

/-- Helper: Python format specifier :.0f (render with no decimals). -/
def fmt0 (q : ℚ) : String := toString (roundHalfEven q)

/-- Helper: Python format specifier :.1f (render with one decimal). -/
def fmt1 (q : ℚ) : String :=
  let n : ℤ := roundHalfEven (q * 10)
  let m : ℕ := n.natAbs
  (if n < 0 then "-" else "") ++ toString (m / 10) ++ "." ++ toString (m % 10)

/-
Streak calculator, from stats_service.calculate_streak (lines 109-120) and
the identical insights_service._calculate_streak /
ai_coaching_service._calculate_streak.  The walk:

    today = date.today(); streak = 0; expected = today
    for d in dates:
        if d == expected: streak += 1; expected -= timedelta(days=1)
        elif d < expected: break
    return streak
-/

/-- Embedding of the loop body of calculate_streak: walk the date list with
the current expected date, counting exact matches, skipping dates after the
expected one, stopping at the first date before it. -/
def streakWalk (expected : ℤ) : List ℤ → ℕ
  | [] => 0
  | d :: ds =>
    if d = expected then streakWalk (expected - 1) ds + 1
    else if d < expected then 0
    else streakWalk expected ds

/-- Embedding of calculate_streak: the date of the ambient clock is passed
explicitly as today.  The empty-input guard of the source returns 0, which
streakWalk also does. -/
def calculate_streak (today : ℤ) (dates : List ℤ) : ℕ :=
  streakWalk today dates

lemma streakWalk_mem_and_stop (dates : List ℤ) :
    ∀ expected : ℤ, dates.Pairwise (fun a b => b < a) →
      (∀ i : ℕ, i < streakWalk expected dates → (expected - (i : ℤ)) ∈ dates) ∧
      (expected - (streakWalk expected dates : ℤ)) ∉ dates := by
  induction dates with
  | nil =>
    intro expected _
    constructor
    · intro i hi
      simp [streakWalk] at hi
    · simp
  | cons d ds ih =>
    intro expected hp
    have hd : ∀ b ∈ ds, b < d := fun b hb => List.rel_of_pairwise_cons hp hb
    have hp2 : ds.Pairwise (fun a b => b < a) := hp.of_cons
    by_cases heq : d = expected
    · subst heq
      obtain ⟨ih1, ih2⟩ := ih (d - 1) hp2
      have hw : streakWalk d (d :: ds) = streakWalk (d - 1) ds + 1 := by
        simp [streakWalk]
      constructor
      · intro i hi
        rw [hw] at hi
        match i with
        | 0 => simp
        | Nat.succ j =>
          have hj : j < streakWalk (d - 1) ds := by omega
          have hmem := ih1 j hj
          have harith : d - ((j : ℤ) + 1) = d - 1 - (j : ℤ) := by ring
          rw [List.mem_cons]
          right
          push_cast
          rw [harith]
          exact hmem
      · rw [hw]
        intro hmem
        rcases List.mem_cons.mp hmem with h1 | h2
        · have h0 : ((streakWalk (d - 1) ds + 1 : ℕ) : ℤ) = 0 := sub_eq_self.mp h1
          push_cast at h0
          omega
        · refine ih2 ?_
          push_cast at h2
          have harith : d - ((streakWalk (d - 1) ds : ℤ) + 1) =
              d - 1 - (streakWalk (d - 1) ds : ℤ) := by ring
          rw [harith] at h2
          exact h2
    · by_cases hlt : d < expected
      · have hw : streakWalk expected (d :: ds) = 0 := by
          simp [streakWalk, heq, hlt]
        constructor
        · intro i hi
          rw [hw] at hi
          omega
        · rw [hw]
          intro hmem
          rcases List.mem_cons.mp hmem with h1 | h2
          · push_cast at h1
            omega
          · have hlt2 := hd _ h2
            push_cast at hlt2
            omega
      · have hgt : expected < d := by
          rcases lt_trichotomy d expected with h | h | h
          · exact absurd h hlt
          · exact absurd h heq
          · exact h
        obtain ⟨ih1, ih2⟩ := ih expected hp2
        have hw : streakWalk expected (d :: ds) = streakWalk expected ds := by
          simp [streakWalk, heq, hlt]
        constructor
        · intro i hi
          rw [hw] at hi
          exact List.mem_cons.mpr (Or.inr (ih1 i hi))
        · rw [hw]
          intro hmem
          rcases List.mem_cons.mp hmem with h1 | h2
          · have h0 : (0 : ℤ) ≤ (streakWalk expected ds : ℤ) := Int.ofNat_nonneg _
            omega
          · exact ih2 h2

/-- C2: for a deduplicated descending date list, the streak is the number of
consecutive calendar days ending today with no gap: the days today,
today - 1, ..., today - (streak - 1) are all present and today - streak is
absent; moreover the four example inputs of the spec give 3, 0, 1 and 0. -/
theorem C2_streak_consecutive_days (today : ℤ) (dates : List ℤ)
    (hp : dates.Pairwise (fun a b => b < a)) :
    (∀ i : ℕ, i < calculate_streak today dates → (today - (i : ℤ)) ∈ dates) ∧
    (today - (calculate_streak today dates : ℤ)) ∉ dates ∧
    calculate_streak today [today, today - 1, today - 2] = 3 ∧
    calculate_streak today [today - 1, today - 2] = 0 ∧
    calculate_streak today [today] = 1 ∧
    calculate_streak today [] = 0 := by
  obtain ⟨h1, h2⟩ := streakWalk_mem_and_stop dates today hp
  refine ⟨h1, h2, ?_, ?_, ?_, ?_⟩
  · simp [calculate_streak, streakWalk, show today - 2 = today - 1 - 1 from by ring]
  · have hne : ¬(today - 1 = today) := by omega
    have hlt : today - 1 < today := by omega
    simp [calculate_streak, streakWalk, hne, hlt]
  · simp [calculate_streak, streakWalk]
  · simp [calculate_streak, streakWalk]

/-- Witness for C2 at a concrete input: a three-day streak ending today. -/
theorem C2_streak_consecutive_days_witness :
    calculate_streak 0 [0, 0 - 1, 0 - 2] = 3 ∧
    ((0 : ℤ) - (calculate_streak 0 [0, -1, -2] : ℤ)) ∉ ([0, -1, -2] : List ℤ) :=
  ⟨(C2_streak_consecutive_days 0 [0, -1, -2] (by decide)).2.2.1,
   (C2_streak_consecutive_days 0 [0, -1, -2] (by decide)).2.1⟩

lemma streakWalk_filter_future (today : ℤ) (dates : List ℤ) :
    ∀ expected : ℤ, expected ≤ today →
      streakWalk expected (dates.filter fun d => decide (d ≤ today)) =
        streakWalk expected dates := by
  induction dates with
  | nil => intro expected _; simp
  | cons d ds ih =>
    intro expected hle
    by_cases hd : d ≤ today
    · rw [List.filter_cons_of_pos (by simpa using hd)]
      simp only [streakWalk]
      split_ifs with h1 h2
      · rw [ih (expected - 1) (by omega)]
      · rfl
      · exact ih expected hle
    · rw [List.filter_cons_of_neg (by simpa using hd)]
      have heq : ¬(d = expected) := by omega
      have hlt : ¬(d < expected) := by omega
      rw [show streakWalk expected (d :: ds) = streakWalk expected ds by
        simp [streakWalk, heq, hlt]]
      exact ih expected hle

/-- C10: dates strictly greater than today never match the equality branch
nor the less-than branch of the walk, so they are skipped and the streak is
unchanged by removing them. -/
theorem C10_streak_ignores_future_dates (today : ℤ) (dates : List ℤ) :
    calculate_streak today dates =
      calculate_streak today (dates.filter fun d => decide (d ≤ today)) := by
  unfold calculate_streak
  exact (streakWalk_filter_future today dates today le_rfl).symm

/-
Optimal-session-length classifier, from
insights_service.get_optimal_session_length (lines 140-203).
-/

/-- Row of the sessions table as read by the classifier query. -/
structure Sess where
  duration_seconds : ℕ
  focused_seconds : ℕ
  is_complete : Bool
deriving DecidableEq

/-- Focus ratio of a session: focused_seconds / duration_seconds, 0 when the
duration is 0 (the guard of line 170). -/
def focusRatioOf (s : Sess) : ℚ :=
  if 0 < s.duration_seconds then
    (s.focused_seconds : ℚ) / (s.duration_seconds : ℚ)
  else 0

/-- Duration bucket boundaries in seconds, as (label_minutes, min_seconds,
max_seconds) with none standing for infinity (lines 159-165). -/
def bucketList : List (ℕ × ℕ × Option ℕ) :=
  [(15, 0, some (20 * 60)),
   (25, 20 * 60, some (35 * 60)),
   (45, 35 * 60, some (52 * 60)),
   (60, 52 * 60, some (75 * 60)),
   (90, 75 * 60, none)]

/-- The bucket labels in iteration order of the bucket_data dict. -/
def bucketLabels : List ℕ := [15, 25, 45, 60, 90]

/-- Test whether a duration falls in a bucket: lo <= d < hi. -/
def inBucket (b : ℕ × ℕ × Option ℕ) (d : ℕ) : Bool :=
  decide (b.2.1 ≤ d) &&
    (match b.2.2 with
     | some hi => decide (d < hi)
     | none => true)

/-- Label of the first bucket whose range holds the duration (the for-break
loop of lines 171-174). -/
def assignedLabel (d : ℕ) : Option ℕ :=
  (bucketList.find? (fun b => inBucket b d)).map (fun b => b.1)

/-- Sessions read by the query: completed sessions with duration > 0. -/
def eligibleSessions (sessions : List Sess) : List Sess :=
  sessions.filter (fun s => s.is_complete && decide (0 < s.duration_seconds))

/-- Ratio list collected for a bucket label (bucket_data[label]). -/
def bucketRatios (sessions : List Sess) (label : ℕ) : List ℚ :=
  (eligibleSessions sessions).filterMap
    (fun s => if assignedLabel s.duration_seconds = some label
              then some (focusRatioOf s) else none)

/-- Number of ratios collected for a bucket label. -/
def bucketCount (sessions : List Sess) (label : ℕ) : ℕ :=
  (bucketRatios sessions label).length

/-- Mean of a list of rationals, 0 for the empty list. -/
def meanQ (l : List ℚ) : ℚ :=
  if l.length = 0 then 0 else l.sum / (l.length : ℚ)

/-- Mean focus ratio of a bucket. -/
def bucketMean (sessions : List Sess) (label : ℕ) : ℚ :=
  meanQ (bucketRatios sessions label)

/-- Running best of the selection loops: (best_label, best_ratio, best_count). -/
structure BestBucket where
  label : ℕ
  avg : ℚ
  count : ℕ
deriving DecidableEq

/-- Step of the first selection loop (lines 181-187): a bucket with at least
3 samples whose average beats the current best replaces it. -/
def sel1step (f : ℕ → List ℚ) (b : BestBucket) (l : ℕ) : BestBucket :=
  if 3 ≤ (f l).length ∧ b.avg < meanQ (f l)
  then ⟨l, meanQ (f l), (f l).length⟩ else b

/-- Step of the fallback loop (lines 190-197): a bucket with strictly more
samples than the current best replaces it. -/
def sel2step (f : ℕ → List ℚ) (b : BestBucket) (l : ℕ) : BestBucket :=
  if b.count < (f l).length
  then ⟨l, meanQ (f l), (f l).length⟩ else b

/-- Result record OptimalSessionLength. -/
structure OptimalSessionLength where
  recommended_minutes : ℕ
  avg_focus_ratio : ℚ
  sample_size : ℕ
deriving DecidableEq

/-- Winning bucket after both selection loops: run the min-3-samples
selection loop from the default (25, 0.0, 0); if it selected nothing
(best_count == 0), continue with the most-samples fallback loop. -/
def bestAfterLoops (sessions : List Sess) : BestBucket :=
  if (bucketLabels.foldl (sel1step (bucketRatios sessions)) ⟨25, 0, 0⟩).count = 0 then
    bucketLabels.foldl (sel2step (bucketRatios sessions))
      (bucketLabels.foldl (sel1step (bucketRatios sessions)) ⟨25, 0, 0⟩)
  else
    bucketLabels.foldl (sel1step (bucketRatios sessions)) ⟨25, 0, 0⟩

/-- Embedding of get_optimal_session_length: the winning label, its average
focus ratio rounded to 3 decimals, and its sample count. -/
def get_optimal_session_length (sessions : List Sess) : OptimalSessionLength :=
  ⟨(bestAfterLoops sessions).label, round3 (bestAfterLoops sessions).avg,
   (bestAfterLoops sessions).count⟩

lemma sel1_fold_spec (f : ℕ → List ℚ) (ls : List ℕ) :
    ∀ init : BestBucket,
      (ls.foldl (sel1step f) init = init ∧
        ∀ l ∈ ls, 3 ≤ (f l).length → meanQ (f l) ≤ init.avg) ∨
      (∃ l ∈ ls, 3 ≤ (f l).length ∧ init.avg < meanQ (f l) ∧
        ls.foldl (sel1step f) init = ⟨l, meanQ (f l), (f l).length⟩ ∧
        ∀ m ∈ ls, 3 ≤ (f m).length → meanQ (f m) ≤ meanQ (f l)) := by
  induction ls with
  | nil =>
    intro init
    exact Or.inl ⟨rfl, by simp⟩
  | cons a tl ih =>
    intro init
    rw [List.foldl_cons]
    by_cases h : 3 ≤ (f a).length ∧ init.avg < meanQ (f a)
    · have hstep : sel1step f init a = ⟨a, meanQ (f a), (f a).length⟩ := by
        simp [sel1step, h]
      rw [hstep]
      rcases ih ⟨a, meanQ (f a), (f a).length⟩ with ⟨heq, hall⟩ | ⟨l, hl, h3, hlt, heq, hmax⟩
      · refine Or.inr ⟨a, List.mem_cons_self a tl, h.1, h.2, heq, ?_⟩
        intro m hm h3m
        rcases List.mem_cons.mp hm with rfl | hm2
        · exact le_refl _
        · exact hall m hm2 h3m
      · refine Or.inr ⟨l, List.mem_cons.mpr (Or.inr hl), h3, ?_, heq, ?_⟩
        · exact lt_trans h.2 (by simpa using hlt)
        · intro m hm h3m
          rcases List.mem_cons.mp hm with rfl | hm2
          · exact le_of_lt (by simpa using hlt)
          · exact hmax m hm2 h3m
    · have hstep : sel1step f init a = init := by
        simp only [sel1step, if_neg h]
      rw [hstep]
      rcases ih init with ⟨heq, hall⟩ | ⟨l, hl, h3, hlt, heq, hmax⟩
      · refine Or.inl ⟨heq, ?_⟩
        intro m hm h3m
        rcases List.mem_cons.mp hm with rfl | hm2
        · by_cases h3a : 3 ≤ (f m).length
          · have := not_and.mp h h3a
            exact le_of_not_lt this
          · exact absurd h3m h3a
        · exact hall m hm2 h3m
      · refine Or.inr ⟨l, List.mem_cons.mpr (Or.inr hl), h3, hlt, heq, ?_⟩
        intro m hm h3m
        rcases List.mem_cons.mp hm with rfl | hm2
        · have hma : meanQ (f m) ≤ init.avg := le_of_not_lt (not_and.mp h h3m)
          exact le_trans hma (le_of_lt hlt)
        · exact hmax m hm2 h3m

lemma sel2_fold_spec (f : ℕ → List ℚ) (ls : List ℕ) :
    ∀ init : BestBucket,
      (ls.foldl (sel2step f) init = init ∧
        ∀ l ∈ ls, (f l).length ≤ init.count) ∨
      (∃ l ∈ ls, init.count < (f l).length ∧
        ls.foldl (sel2step f) init = ⟨l, meanQ (f l), (f l).length⟩ ∧
        ∀ m ∈ ls, (f m).length ≤ (f l).length) := by
  induction ls with
  | nil =>
    intro init
    exact Or.inl ⟨rfl, by simp⟩
  | cons a tl ih =>
    intro init
    rw [List.foldl_cons]
    by_cases h : init.count < (f a).length
    · have hstep : sel2step f init a = ⟨a, meanQ (f a), (f a).length⟩ := by
        simp [sel2step, h]
      rw [hstep]
      rcases ih ⟨a, meanQ (f a), (f a).length⟩ with ⟨heq, hall⟩ | ⟨l, hl, hlt, heq, hmax⟩
      · refine Or.inr ⟨a, List.mem_cons_self a tl, h, heq, ?_⟩
        intro m hm
        rcases List.mem_cons.mp hm with rfl | hm2
        · exact le_refl _
        · exact hall m hm2
      · refine Or.inr ⟨l, List.mem_cons.mpr (Or.inr hl), ?_, heq, ?_⟩
        · exact lt_trans h (by simpa using hlt)
        · intro m hm
          rcases List.mem_cons.mp hm with rfl | hm2
          · exact le_of_lt (by simpa using hlt)
          · exact hmax m hm2
    · have hstep : sel2step f init a = init := by
        simp only [sel2step, if_neg h]
      rw [hstep]
      rcases ih init with ⟨heq, hall⟩ | ⟨l, hl, hlt, heq, hmax⟩
      · refine Or.inl ⟨heq, ?_⟩
        intro m hm
        rcases List.mem_cons.mp hm with rfl | hm2
        · exact le_of_not_lt h
        · exact hall m hm2
      · refine Or.inr ⟨l, List.mem_cons.mpr (Or.inr hl), hlt, heq, ?_⟩
        intro m hm
        rcases List.mem_cons.mp hm with rfl | hm2
        · exact le_trans (le_of_not_lt h) (le_of_lt hlt)
        · exact hmax m hm2

lemma bucketRatios_nonneg (sessions : List Sess) (label : ℕ) :
    ∀ x ∈ bucketRatios sessions label, 0 ≤ x := by
  intro x hx
  rcases List.mem_filterMap.mp hx with ⟨s, _, hs⟩
  by_cases hc : assignedLabel s.duration_seconds = some label
  · rw [if_pos hc] at hs
    cases hs
    unfold focusRatioOf
    split
    · positivity
    · exact le_refl 0
  · rw [if_neg hc] at hs
    cases hs

lemma bucketMean_nonneg (sessions : List Sess) (label : ℕ) :
    0 ≤ bucketMean sessions label := by
  unfold bucketMean meanQ
  split
  · exact le_refl 0
  · have hsum : 0 ≤ (bucketRatios sessions label).sum :=
      List.sum_nonneg (bucketRatios_nonneg sessions label)
    positivity

lemma round3_zero : round3 (0 : ℚ) = 0 := by
  norm_num [round3, roundHalfEven]

lemma bucket_partition (d : ℕ) : ∃! b, b ∈ bucketList ∧ inBucket b d = true := by
  by_cases h1 : d < 20 * 60
  · refine ⟨(15, 0, some (20 * 60)), ⟨by simp [bucketList], by simp [inBucket]; omega⟩, ?_⟩
    rintro y ⟨hy, hin⟩
    simp only [bucketList, List.mem_cons, List.not_mem_nil, or_false] at hy
    rcases hy with rfl | rfl | rfl | rfl | rfl <;>
      first
        | rfl
        | (exfalso; simp only [inBucket, Bool.and_eq_true, decide_eq_true_eq] at hin; omega)
  · by_cases h2 : d < 35 * 60
    · refine ⟨(25, 20 * 60, some (35 * 60)),
        ⟨by simp [bucketList], by simp [inBucket]; omega⟩, ?_⟩
      rintro y ⟨hy, hin⟩
      simp only [bucketList, List.mem_cons, List.not_mem_nil, or_false] at hy
      rcases hy with rfl | rfl | rfl | rfl | rfl <;>
        first
          | rfl
          | (exfalso; simp only [inBucket, Bool.and_eq_true, decide_eq_true_eq] at hin; omega)
    · by_cases h3 : d < 52 * 60
      · refine ⟨(45, 35 * 60, some (52 * 60)),
          ⟨by simp [bucketList], by simp [inBucket]; omega⟩, ?_⟩
        rintro y ⟨hy, hin⟩
        simp only [bucketList, List.mem_cons, List.not_mem_nil, or_false] at hy
        rcases hy with rfl | rfl | rfl | rfl | rfl <;>
          first
            | rfl
            | (exfalso; simp only [inBucket, Bool.and_eq_true, decide_eq_true_eq] at hin; omega)
      · by_cases h4 : d < 75 * 60
        · refine ⟨(60, 52 * 60, some (75 * 60)),
            ⟨by simp [bucketList], by simp [inBucket]; omega⟩, ?_⟩
          rintro y ⟨hy, hin⟩
          simp only [bucketList, List.mem_cons, List.not_mem_nil, or_false] at hy
          rcases hy with rfl | rfl | rfl | rfl | rfl <;>
            first
              | rfl
              | (exfalso; simp only [inBucket, Bool.and_eq_true, decide_eq_true_eq] at hin; omega)
        · refine ⟨(90, 75 * 60, none),
            ⟨by simp [bucketList], by simp [inBucket]; omega⟩, ?_⟩
          rintro y ⟨hy, hin⟩
          simp only [bucketList, List.mem_cons, List.not_mem_nil, or_false] at hy
          rcases hy with rfl | rfl | rfl | rfl | rfl <;>
            first
              | rfl
              | (exfalso; simp only [inBucket, Bool.and_eq_true, decide_eq_true_eq] at hin; omega)

/-- C1: the classifier assigns each positive duration to a unique bucket;
the returned label carries the rounded mean and sample count of its own
bucket; among buckets with at least 3 ratios the winner has the highest
mean; with no such bucket the winner has the most samples overall; with no
samples at all the result is (25, 0.0, 0). -/
theorem C1_optimal_session_length (sessions : List Sess) :
    (∀ d : ℕ, ∃! b, b ∈ bucketList ∧ inBucket b d = true) ∧
    (get_optimal_session_length sessions).recommended_minutes ∈ bucketLabels ∧
    (get_optimal_session_length sessions).avg_focus_ratio =
      round3 (bucketMean sessions
        (get_optimal_session_length sessions).recommended_minutes) ∧
    (get_optimal_session_length sessions).sample_size =
      bucketCount sessions (get_optimal_session_length sessions).recommended_minutes ∧
    ((∃ q ∈ bucketLabels, 3 ≤ bucketCount sessions q) →
      3 ≤ bucketCount sessions
            (get_optimal_session_length sessions).recommended_minutes ∧
      ∀ m ∈ bucketLabels, 3 ≤ bucketCount sessions m →
        bucketMean sessions m ≤
          bucketMean sessions
            (get_optimal_session_length sessions).recommended_minutes) ∧
    ((∀ m ∈ bucketLabels, bucketCount sessions m < 3) →
      ∀ m ∈ bucketLabels, bucketCount sessions m ≤
        bucketCount sessions
          (get_optimal_session_length sessions).recommended_minutes) ∧
    ((∀ m ∈ bucketLabels, bucketCount sessions m = 0) →
      get_optimal_session_length sessions = ⟨25, 0, 0⟩) := by
  refine ⟨bucket_partition, ?_⟩
  rcases sel1_fold_spec (bucketRatios sessions) bucketLabels ⟨25, 0, 0⟩ with
    ⟨heq1, hall1⟩ | ⟨l, hl, h3, hlt, heq1, hmax1⟩
  · rcases sel2_fold_spec (bucketRatios sessions) bucketLabels ⟨25, 0, 0⟩ with
      ⟨heq2, hall2⟩ | ⟨l, hl, hlt2, heq2, hmax2⟩
    · -- both loops left the default: every bucket is empty
      have hbb : bestAfterLoops sessions = ⟨25, 0, 0⟩ := by
        unfold bestAfterLoops
        rw [heq1, heq2]
        simp
      have hr : get_optimal_session_length sessions = ⟨25, round3 0, 0⟩ := by
        unfold get_optimal_session_length
        rw [hbb]
      have hcnt : ∀ m ∈ bucketLabels, bucketCount sessions m = 0 := by
        intro m hm
        have := hall2 m hm
        simpa [bucketCount] using this
      have hc25 : bucketCount sessions 25 = 0 := hcnt 25 (by simp [bucketLabels])
      have hm25 : bucketMean sessions 25 = 0 := by
        have hlen : (bucketRatios sessions 25).length = 0 := hc25
        unfold bucketMean meanQ
        rw [if_pos hlen]
      rw [hr]
      refine ⟨by simp [bucketLabels], ?_, ?_, ?_, ?_, ?_⟩
      · simp [hm25]
      · simp [hc25]
      · rintro ⟨q, hq, h3q⟩
        exact absurd (hcnt q hq) (by omega)
      · intro _ m hm
        simp [hcnt m hm]
      · intro _
        simp [round3_zero]
    · -- fallback loop selected the bucket with the most samples
      have hbb : bestAfterLoops sessions =
          ⟨l, meanQ (bucketRatios sessions l), (bucketRatios sessions l).length⟩ := by
        unfold bestAfterLoops
        rw [heq1, heq2]
        simp
      have hr : get_optimal_session_length sessions =
          ⟨l, round3 (meanQ (bucketRatios sessions l)),
           (bucketRatios sessions l).length⟩ := by
        unfold get_optimal_session_length
        rw [hbb]
      have hpos : 0 < (bucketRatios sessions l).length := by simpa using hlt2
      rw [hr]
      refine ⟨hl, rfl, rfl, ?_, ?_, ?_⟩
      · rintro ⟨q, hq, h3q⟩
        have hql : bucketCount sessions q ≤ bucketCount sessions l := hmax2 q hq
        constructor
        · exact le_trans h3q hql
        · intro m hm h3m
          have hm0 : bucketMean sessions m ≤ 0 := by
            simpa [bucketMean] using hall1 m hm h3m
          exact le_trans hm0 (bucketMean_nonneg sessions l)
      · intro _ m hm
        exact hmax2 m hm
      · intro hempty
        exfalso
        have hc : (bucketRatios sessions l).length = 0 := hempty l hl
        omega
  · -- first loop selected a bucket with >= 3 samples and maximal mean
    have hbb : bestAfterLoops sessions =
        ⟨l, meanQ (bucketRatios sessions l), (bucketRatios sessions l).length⟩ := by
      unfold bestAfterLoops
      rw [heq1]
      have hne : ¬((⟨l, meanQ (bucketRatios sessions l),
          (bucketRatios sessions l).length⟩ : BestBucket).count = 0) := by
        show ¬((bucketRatios sessions l).length = 0)
        omega
      rw [if_neg hne]
    have hr : get_optimal_session_length sessions =
        ⟨l, round3 (meanQ (bucketRatios sessions l)),
         (bucketRatios sessions l).length⟩ := by
      unfold get_optimal_session_length
      rw [hbb]
    have h3c : 3 ≤ bucketCount sessions l := h3
    rw [hr]
    refine ⟨hl, rfl, rfl, ?_, ?_, ?_⟩
    · intro _
      exact ⟨h3c, fun m hm h3m => hmax1 m hm h3m⟩
    · intro hall m hm
      exfalso
      have hc : (bucketRatios sessions l).length < 3 := hall l hl
      omega
    · intro hempty
      exfalso
      have hc : (bucketRatios sessions l).length = 0 := hempty l hl
      omega

/-- Concrete history for the C1 witness: four 25-minute sessions with high
focus ratio and four 60-minute sessions with ratio one half. -/
def c1ExampleSessions : List Sess :=
  [⟨1500, 1440, true⟩, ⟨1500, 1440, true⟩, ⟨1500, 1440, true⟩, ⟨1500, 1440, true⟩,
   ⟨3600, 1800, true⟩, ⟨3600, 1800, true⟩, ⟨3600, 1800, true⟩, ⟨3600, 1800, true⟩]

/-- Witness for C1: on the example history the winning bucket holds at least
3 samples and its mean dominates the qualifying 60-minute bucket. -/
theorem C1_optimal_session_length_witness :
    3 ≤ bucketCount c1ExampleSessions
          (get_optimal_session_length c1ExampleSessions).recommended_minutes ∧
    bucketMean c1ExampleSessions 60 ≤
      bucketMean c1ExampleSessions
        (get_optimal_session_length c1ExampleSessions).recommended_minutes :=
  ⟨((C1_optimal_session_length c1ExampleSessions).2.2.2.2.1
      ⟨25, by decide, by decide⟩).1,
   ((C1_optimal_session_length c1ExampleSessions).2.2.2.2.1
      ⟨25, by decide, by decide⟩).2 60 (by decide) (by decide)⟩

/-
Rule-based goal generator, from insights_service.get_smart_goals
(lines 206-324).
-/

/-- Row of the sessions table as read by the goal generator: start timestamp
in seconds, aggregate fields, completion flag. -/
structure WSess where
  start_time : ℤ
  focused_seconds : ℕ
  distraction_count : ℕ
  is_complete : Bool
deriving DecidableEq

/-- Aggregates of one week of completed sessions (_week_stats). -/
structure WeekStats where
  focused_seconds : ℕ
  session_count : ℕ
  distraction_count : ℕ
deriving DecidableEq

/-- Embedding of _week_stats: sums over completed sessions whose start time
lies in [start, end). -/
def week_stats (sessions : List WSess) (a b : ℤ) : WeekStats :=
  ⟨(((sessions.filter (fun s =>
        s.is_complete && decide (a ≤ s.start_time) && decide (s.start_time < b))).map
      (fun s => s.focused_seconds)).sum),
   (sessions.filter (fun s =>
      s.is_complete && decide (a ≤ s.start_time) && decide (s.start_time < b))).length,
   (((sessions.filter (fun s =>
        s.is_complete && decide (a ≤ s.start_time) && decide (s.start_time < b))).map
      (fun s => s.distraction_count)).sum)⟩

/-- Insertion of a day into a descending-sorted list (models the store's
ORDER BY date DESC on the distinct session dates). -/
def insertDesc (x : ℤ) : List ℤ → List ℤ
  | [] => [x]
  | y :: ys => if y < x then x :: y :: ys else y :: insertDesc x ys

/-- Descending sort of the distinct session dates. -/
def sortDesc : List ℤ → List ℤ
  | [] => []
  | x :: xs => insertDesc x (sortDesc xs)

/-- Result record SmartGoal. -/
structure SmartGoal where
  goal_type : String
  target_value : ℚ
  current_value : ℚ
  description : String
deriving DecidableEq

/-- Embedding of get_smart_goals: current week vs previous week aggregates,
streak over the distinct dates of all completed sessions, then the four
goals in their fixed order. -/
def get_smart_goals (now : ℤ) (sessions : List WSess) : List SmartGoal :=
  let current := week_stats sessions (now - 7 * 86400) now
  let previous := week_stats sessions (now - 14 * 86400) (now - 7 * 86400)
  let dates := sortDesc
    (((sessions.filter (fun s => s.is_complete)).map
        (fun s => s.start_time.fdiv 86400)).dedup)
  let streak := calculate_streak (now.fdiv 86400) dates
  let current_daily_focus : ℚ := (current.focused_seconds : ℚ) / 7 / 60
  let target_focus : ℚ :=
    if 0 < previous.focused_seconds then
      (roundHalfEven (((previous.focused_seconds : ℚ) / 7 / 60) * (11 / 10)) : ℚ)
    else 60
  let target_sessions : ℕ :=
    if 0 < previous.session_count then
      max (previous.session_count + 1) current.session_count
    else 5
  let target_distractions : ℤ :=
    if 0 < previous.distraction_count then
      max 0 (roundHalfEven ((previous.distraction_count : ℚ) * (8 / 10)))
    else 0
  let target_streak : ℕ := max (streak + 1) 3
  [⟨"daily_focus", target_focus, round1 current_daily_focus,
    "Focus for " ++ toString (pyInt target_focus) ++ " minutes daily"⟩,
   ⟨"session_count", (target_sessions : ℚ), (current.session_count : ℚ),
    "Complete " ++ toString target_sessions ++ " focus sessions this week"⟩,
   ⟨"distraction_reduction", (target_distractions : ℚ), (current.distraction_count : ℚ),
    if 0 < target_distractions then
      "Keep distractions below " ++ toString target_distractions ++ " this week"
    else "Stay distraction-free this week"⟩,
   ⟨"streak", (target_streak : ℚ), (streak : ℚ),
    "Build a " ++ toString target_streak ++ "-day focus streak"⟩]

lemma week_stats_no_complete (sessions : List WSess)
    (h : ∀ s ∈ sessions, s.is_complete = false) (a b : ℤ) :
    week_stats sessions a b = ⟨0, 0, 0⟩ := by
  have hf : sessions.filter (fun s =>
      s.is_complete && decide (a ≤ s.start_time) && decide (s.start_time < b)) = [] := by
    rw [List.filter_eq_nil_iff]
    intro s hs
    simp [h s hs]
  unfold week_stats
  rw [hf]
  rfl

/-- C5: with no completed-session history the generator returns exactly the
four default goals, in order daily_focus, session_count,
distraction_reduction, streak, with targets 60, 5, 0 and 3, current values
0, and the fixed description strings. -/
theorem C5_smart_goals_no_history (now : ℤ) (sessions : List WSess)
    (h : ∀ s ∈ sessions, s.is_complete = false) :
    get_smart_goals now sessions =
      [⟨"daily_focus", 60, 0, "Focus for 60 minutes daily"⟩,
       ⟨"session_count", 5, 0, "Complete 5 focus sessions this week"⟩,
       ⟨"distraction_reduction", 0, 0, "Stay distraction-free this week"⟩,
       ⟨"streak", 3, 0, "Build a 3-day focus streak"⟩] := by
  have hcf : sessions.filter (fun s => s.is_complete) = [] := by
    rw [List.filter_eq_nil_iff]
    intro s hs
    simp [h s hs]
  unfold get_smart_goals
  rw [week_stats_no_complete sessions h, week_stats_no_complete sessions h, hcf]
  norm_num [sortDesc, calculate_streak, streakWalk, round1, roundHalfEven, pyInt]
  constructor
  · decide
  · decide

/-- Witness for C5: the empty history produces the four default goals. -/
theorem C5_smart_goals_no_history_witness :
    get_smart_goals 0 [] =
      [⟨"daily_focus", 60, 0, "Focus for 60 minutes daily"⟩,
       ⟨"session_count", 5, 0, "Complete 5 focus sessions this week"⟩,
       ⟨"distraction_reduction", 0, 0, "Stay distraction-free this week"⟩,
       ⟨"streak", 3, 0, "Build a 3-day focus streak"⟩] :=
  C5_smart_goals_no_history 0 [] (by simp)

/-
Distraction-pattern aggregation, from
insights_service.get_distraction_patterns (lines 99-137).  The query joins
session_events to sessions and filters only on the user, the window and the
event; it has no is_complete filter.
-/

/-- Row of the sessions table as read by the join. -/
structure DSess where
  sid : ℕ
  user_id : ℕ
  start_time : ℤ
  is_complete : Bool
deriving DecidableEq

/-- Row of the session_events table. -/
structure DEvent where
  session_id : ℕ
  event_type : String
  app_name : Option String
  duration_seconds : Option ℕ
deriving DecidableEq

/-- Result record DistractionPattern. -/
structure DistractionPattern where
  app_name : String
  count : ℕ
  total_duration_seconds : ℕ
deriving DecidableEq

/-- Contribution of one event to the aggregation: the joined session must
belong to the user and start inside the window, the event must be a
DISTRACTION with a non-null app_name; the duration is coalesced to 0. -/
def eventContribution (sessions : List DSess) (u : ℕ) (start : ℤ)
    (e : DEvent) : Option (String × ℕ) :=
  match sessions.find? (fun s => s.sid == e.session_id) with
  | some s =>
    if s.user_id = u ∧ start ≤ s.start_time ∧ e.event_type = "DISTRACTION" then
      match e.app_name with
      | some app => some (app, e.duration_seconds.getD 0)
      | none => none
    else none
  | none => none

/-- All (app_name, duration) pairs of events that pass the WHERE clause. -/
def matchingEvents (sessions : List DSess) (events : List DEvent)
    (u : ℕ) (start : ℤ) : List (String × ℕ) :=
  events.filterMap (eventContribution sessions u start)

/-- Keys not yet seen, in first-occurrence order (helper for the GROUP BY
key order). -/
def firstKeysAux (seen : List String) : List (String × ℕ) → List String
  | [] => []
  | (a, _) :: rest =>
    if a ∈ seen then firstKeysAux seen rest
    else a :: firstKeysAux (a :: seen) rest

/-- First occurrence of each app name, in order (GROUP BY key order). -/
def firstKeys (l : List (String × ℕ)) : List String :=
  firstKeysAux [] l

/-- GROUP BY app_name with count(*) and sum(duration). -/
def groupApps (l : List (String × ℕ)) : List DistractionPattern :=
  (firstKeys l).map (fun a =>
    ⟨a, (l.filter (fun q => decide (q.1 = a))).length,
     ((l.filter (fun q => decide (q.1 = a))).map (fun q => q.2)).sum⟩)

/-- Stable insertion for ORDER BY count DESC. -/
def insertByCount (x : DistractionPattern) :
    List DistractionPattern → List DistractionPattern
  | [] => [x]
  | y :: ys => if y.count < x.count then x :: y :: ys else y :: insertByCount x ys

/-- Stable sort for ORDER BY count DESC. -/
def sortByCountDesc : List DistractionPattern → List DistractionPattern
  | [] => []
  | x :: xs => insertByCount x (sortByCountDesc xs)

/-- Embedding of get_distraction_patterns: group the matching events of the
window [now - days, now] by app name, order by count descending, limit 10. -/
def get_distraction_patterns (sessions : List DSess) (events : List DEvent)
    (u : ℕ) (now : ℤ) (days : ℕ) : List DistractionPattern :=
  (sortByCountDesc (groupApps
    (matchingEvents sessions events u (now - (days : ℤ) * 86400)))).take 10

lemma groupApps_count_sum (l : List (String × ℕ)) (p : DistractionPattern)
    (hp : p ∈ groupApps l) :
    p.count = (l.filter (fun q => decide (q.1 = p.app_name))).length ∧
    p.total_duration_seconds =
      ((l.filter (fun q => decide (q.1 = p.app_name))).map (fun q => q.2)).sum := by
  rcases List.mem_map.mp hp with ⟨a, _, rfl⟩
  exact ⟨rfl, rfl⟩

lemma insertByCount_perm (x : DistractionPattern) (l : List DistractionPattern) :
    (insertByCount x l).Perm (x :: l) := by
  induction l with
  | nil => exact List.Perm.refl _
  | cons y ys ih =>
    unfold insertByCount
    split_ifs with h
    · exact List.Perm.refl _
    · exact (ih.cons y).trans (List.Perm.swap x y ys)

lemma sortByCountDesc_perm (l : List DistractionPattern) :
    (sortByCountDesc l).Perm l := by
  induction l with
  | nil => exact List.Perm.refl _
  | cons x xs ih =>
    unfold sortByCountDesc
    exact (insertByCount_perm x (sortByCountDesc xs)).trans (ih.cons x)

lemma insertByCount_sorted (x : DistractionPattern) (l : List DistractionPattern)
    (h : l.Pairwise (fun a b => b.count ≤ a.count)) :
    (insertByCount x l).Pairwise (fun a b => b.count ≤ a.count) := by
  induction l with
  | nil => simp [insertByCount]
  | cons y ys ih =>
    unfold insertByCount
    split_ifs with hcmp
    · refine List.Pairwise.cons ?_ h
      intro z hz
      rcases List.mem_cons.mp hz with rfl | hz2
      · omega
      · have hzy := List.rel_of_pairwise_cons h hz2
        omega
    · have hys := h.of_cons
      have hyall : ∀ z ∈ ys, z.count ≤ y.count :=
        fun z hz => List.rel_of_pairwise_cons h hz
      refine List.Pairwise.cons ?_ (ih hys)
      intro z hz
      have hz2 := (insertByCount_perm x ys).mem_iff.mp hz
      rcases List.mem_cons.mp hz2 with rfl | hz3
      · omega
      · exact hyall _ hz3

lemma sortByCountDesc_sorted (l : List DistractionPattern) :
    (sortByCountDesc l).Pairwise (fun a b => b.count ≤ a.count) := by
  induction l with
  | nil => simp [sortByCountDesc]
  | cons x xs ih =>
    unfold sortByCountDesc
    exact insertByCount_sorted x (sortByCountDesc xs) ih

lemma find?_map_setComplete (sessions : List DSess) (b : Bool) (n : ℕ) :
    ((sessions.map (fun s => (⟨s.sid, s.user_id, s.start_time, b⟩ : DSess))).find?
        (fun s => s.sid == n)) =
      (sessions.find? (fun s => s.sid == n)).map
        (fun s => (⟨s.sid, s.user_id, s.start_time, b⟩ : DSess)) := by
  induction sessions with
  | nil => rfl
  | cons s ss ih =>
    rw [List.map_cons, List.find?_cons, List.find?_cons]
    cases hc : (s.sid == n) with
    | true => simp [hc]
    | false => simp [hc, ih]

lemma eventContribution_setComplete (sessions : List DSess) (b : Bool)
    (u : ℕ) (start : ℤ) (e : DEvent) :
    eventContribution (sessions.map (fun s => ⟨s.sid, s.user_id, s.start_time, b⟩))
        u start e =
      eventContribution sessions u start e := by
  unfold eventContribution
  rw [find?_map_setComplete]
  cases hf : sessions.find? (fun s => s.sid == e.session_id) with
  | none => rfl
  | some s => rfl

/-- C3 counterexample: one incomplete session with one DISTRACTION event for
app X, duration 30, inside the window.  The aggregation returns the group
for X, so events of incomplete sessions are counted. -/
theorem C3_distraction_patterns_counterexample :
    get_distraction_patterns [⟨1, 7, 0, false⟩]
        [⟨1, "DISTRACTION", some "X", some 30⟩] 7 0 30 =
      [⟨"X", 1, 30⟩] := by
  decide

/-- C3 (amended): the aggregation counts DISTRACTION events with non-null
app_name joined to the user's sessions in the window regardless of the
completion flag; each returned group carries the event count and coalesced
duration sum of its app; groups are ordered by count descending and at most
10 are returned; flipping every session's is_complete flag leaves the
result unchanged. -/
theorem C3_distraction_patterns_top10 (sessions : List DSess)
    (events : List DEvent) (u : ℕ) (now : ℤ) (days : ℕ) :
    (∀ g ∈ get_distraction_patterns sessions events u now days,
      g.count = ((matchingEvents sessions events u (now - (days : ℤ) * 86400)).filter
          (fun q => decide (q.1 = g.app_name))).length ∧
      g.total_duration_seconds =
        (((matchingEvents sessions events u (now - (days : ℤ) * 86400)).filter
            (fun q => decide (q.1 = g.app_name))).map (fun q => q.2)).sum) ∧
    (get_distraction_patterns sessions events u now days).Pairwise
      (fun a b => b.count ≤ a.count) ∧
    (get_distraction_patterns sessions events u now days).length ≤ 10 ∧
    (∀ b : Bool,
      get_distraction_patterns
          (sessions.map (fun s => ⟨s.sid, s.user_id, s.start_time, b⟩))
          events u now days =
        get_distraction_patterns sessions events u now days) := by
  refine ⟨?_, ?_, ?_, ?_⟩
  · intro g hg
    have hg2 : g ∈ sortByCountDesc (groupApps
        (matchingEvents sessions events u (now - (days : ℤ) * 86400))) :=
      List.Sublist.mem hg (List.take_sublist _ _)
    have hg3 : g ∈ groupApps
        (matchingEvents sessions events u (now - (days : ℤ) * 86400)) :=
      (sortByCountDesc_perm _).mem_iff.mp hg2
    exact groupApps_count_sum _ g hg3
  · exact List.Pairwise.sublist (List.take_sublist _ _) (sortByCountDesc_sorted _)
  · unfold get_distraction_patterns
    rw [List.length_take]
    exact min_le_left _ _
  · intro b
    unfold get_distraction_patterns matchingEvents
    have hfun : eventContribution
        (sessions.map (fun s => ⟨s.sid, s.user_id, s.start_time, b⟩))
          u (now - (days : ℤ) * 86400) =
        eventContribution sessions u (now - (days : ℤ) * 86400) :=
      funext (fun e => eventContribution_setComplete sessions b u _ e)
    rw [hfun]

/-- Witness for C3 at the counterexample input: the group for X carries the
count of its matching events, and setting every completion flag to true
leaves the result unchanged. -/
theorem C3_distraction_patterns_top10_witness :
    (⟨"X", 1, 30⟩ : DistractionPattern).count =
      ((matchingEvents [⟨1, 7, 0, false⟩] [⟨1, "DISTRACTION", some "X", some 30⟩]
          7 (0 - (30 : ℤ) * 86400)).filter
        (fun q => decide (q.1 = (⟨"X", 1, 30⟩ : DistractionPattern).app_name))).length ∧
    get_distraction_patterns
        (([⟨1, 7, 0, false⟩] : List DSess).map
          (fun s => ⟨s.sid, s.user_id, s.start_time, true⟩))
        [⟨1, "DISTRACTION", some "X", some 30⟩] 7 0 30 =
      get_distraction_patterns [⟨1, 7, 0, false⟩]
        [⟨1, "DISTRACTION", some "X", some 30⟩] 7 0 30 :=
  ⟨((C3_distraction_patterns_top10 [⟨1, 7, 0, false⟩]
      [⟨1, "DISTRACTION", some "X", some 30⟩] 7 0 30).1
        ⟨"X", 1, 30⟩ (by decide)).1,
   (C3_distraction_patterns_top10 [⟨1, 7, 0, false⟩]
      [⟨1, "DISTRACTION", some "X", some 30⟩] 7 0 30).2.2.2 true⟩

/-
Goals JSON parsing, from ai_coaching_service._parse_goals_json (lines
648-669) and _validate_goals (lines 672-684).  json.loads is modelled by a
recursive-descent parser over the character list (fuel-indexed so that it
computes by kernel reduction); JSON numbers are modelled as integers, which
is all the claims exercise.
-/

/-- JSON values as produced by json.loads. -/
inductive Json where
  | null
  | bool (b : Bool)
  | num (n : ℤ)
  | str (s : String)
  | arr (xs : List Json)
  | obj (kvs : List (String × Json))

/-- Opening curly brace character. -/
def lbrace : Char := Char.ofNat 123

/-- Closing curly brace character. -/
def rbrace : Char := Char.ofNat 125

/-- Drop JSON whitespace. -/
def skipWs (cs : List Char) : List Char :=
  cs.dropWhile (fun c => c == ' ' || c == '\n' || c == '\t' || c == '\r')

/-- Parse the body of a JSON string after the opening quote, handling the
escapes the claims exercise. -/
def parseStrBody : List Char → Option (List Char × List Char)
  | [] => none
  | c :: cs =>
    if c = '"' then some ([], cs)
    else if c = '\\' then
      match cs with
      | [] => none
      | e :: cs2 =>
        let ec := if e = 'n' then '\n' else if e = 't' then '\t' else e
        match parseStrBody cs2 with
        | some (s, rest) => some (ec :: s, rest)
        | none => none
    else
      match parseStrBody cs with
      | some (s, rest) => some (c :: s, rest)
      | none => none

/-- Digits to a natural number. -/
def digitsToNat (ds : List Char) : ℕ :=
  ds.foldl (fun acc c => acc * 10 + (c.toNat - 48)) 0

mutual

/-- Parse one JSON value. -/
def parseValue : ℕ → List Char → Option (Json × List Char)
  | 0, _ => none
  | fuel + 1, cs =>
    match skipWs cs with
    | [] => none
    | c :: rest =>
      if c = '"' then
        match parseStrBody rest with
        | some (s, r) => some (.str (String.mk s), r)
        | none => none
      else if c = '[' then parseArr fuel rest
      else if c = lbrace then parseObjStart fuel rest
      else if c = 't' then
        match rest with
        | 'r' :: 'u' :: 'e' :: r => some (.bool true, r)
        | _ => none
      else if c = 'f' then
        match rest with
        | 'a' :: 'l' :: 's' :: 'e' :: r => some (.bool false, r)
        | _ => none
      else if c = 'n' then
        match rest with
        | 'u' :: 'l' :: 'l' :: r => some (.null, r)
        | _ => none
      else if c = '-' then
        match rest.span (fun d => d.isDigit) with
        | ([], _) => none
        | (ds, r) => some (.num (-(digitsToNat ds : ℤ)), r)
      else if c.isDigit then
        match (c :: rest).span (fun d => d.isDigit) with
        | (ds, r) => some (.num (digitsToNat ds : ℤ), r)
      else none

/-- Parse an array after the opening bracket. -/
def parseArr : ℕ → List Char → Option (Json × List Char)
  | 0, _ => none
  | fuel + 1, cs =>
    match skipWs cs with
    | [] => none
    | c :: rest =>
      if c = ']' then some (.arr [], rest)
      else
        match parseValue fuel (c :: rest) with
        | some (v, r) =>
          match parseArrTail fuel r with
          | some (vs, r2) => some (.arr (v :: vs), r2)
          | none => none
        | none => none

/-- Parse the rest of an array: a comma and a value, or the close bracket. -/
def parseArrTail : ℕ → List Char → Option (List Json × List Char)
  | 0, _ => none
  | fuel + 1, cs =>
    match skipWs cs with
    | [] => none
    | c :: rest =>
      if c = ']' then some ([], rest)
      else if c = ',' then
        match parseValue fuel rest with
        | some (v, r) =>
          match parseArrTail fuel r with
          | some (vs, r2) => some (v :: vs, r2)
          | none => none
        | none => none
      else none

/-- Parse an object after the opening brace. -/
def parseObjStart : ℕ → List Char → Option (Json × List Char)
  | 0, _ => none
  | fuel + 1, cs =>
    match skipWs cs with
    | [] => none
    | c :: rest =>
      if c = rbrace then some (.obj [], rest)
      else
        match parseMember fuel (c :: rest) with
        | some (kv, r) =>
          match parseObjTail fuel r with
          | some (kvs, r2) => some (.obj (kv :: kvs), r2)
          | none => none
        | none => none

/-- Parse one key-value member of an object. -/
def parseMember : ℕ → List Char → Option ((String × Json) × List Char)
  | 0, _ => none
  | fuel + 1, cs =>
    match skipWs cs with
    | [] => none
    | c :: rest =>
      if c = '"' then
        match parseStrBody rest with
        | some (k, r) =>
          match skipWs r with
          | ':' :: r2 =>
            match parseValue fuel r2 with
            | some (v, r3) => some ((String.mk k, v), r3)
            | none => none
          | _ => none
        | none => none
      else none

/-- Parse the rest of an object: a comma and a member, or the close brace. -/
def parseObjTail : ℕ → List Char → Option (List (String × Json) × List Char)
  | 0, _ => none
  | fuel + 1, cs =>
    match skipWs cs with
    | [] => none
    | c :: rest =>
      if c = rbrace then some ([], rest)
      else if c = ',' then
        match parseMember fuel rest with
        | some (kv, r) =>
          match parseObjTail fuel r with
          | some (kvs, r2) => some (kv :: kvs, r2)
          | none => none
        | none => none
      else none

end

/-- Model of json.loads: parse one value and require only whitespace after
it; any failure is a JSONDecodeError, modelled as none. -/
def json_loads (s : String) : Option Json :=
  match parseValue (2 * s.length + 8) s.toList with
  | some (v, rest) => if skipWs rest = [] then some v else none
  | none => none

/-- Goal record with the three required keys. -/
structure Goal where
  goal : String
  target : String
  reasoning : String
deriving DecidableEq

/-- Python str() on a decoded JSON value.  The container cases stand in for
the list/dict repr, which no claim exercises. -/
def pyStr : Json → String
  | .str s => s
  | .num n => toString n
  | .bool true => "True"
  | .bool false => "False"
  | .null => "None"
  | .arr _ => "\x5b...\x5d"
  | .obj _ => "\x7b...\x7d"

/-- Key lookup in a decoded object (Python dict semantics: last wins). -/
def dictGet (kvs : List (String × Json)) (k : String) : Option Json :=
  (kvs.reverse.find? (fun kv => kv.1 == k)).map (fun kv => kv.2)

/-- An element passes validation when it is an object holding all of goal,
target and reasoning; the values are coerced with str(). -/
def validGoal (g : Json) : Option Goal :=
  match g with
  | .obj kvs =>
    match dictGet kvs "goal", dictGet kvs "target", dictGet kvs "reasoning" with
    | some a, some b, some c => some ⟨pyStr a, pyStr b, pyStr c⟩
    | _, _, _ => none
  | _ => none

/-- Embedding of _validate_goals: keep the valid elements; none when no
element is valid. -/
def validate_goals (goals : List Json) : Option (List Goal) :=
  if goals.filterMap validGoal = [] then none
  else some (goals.filterMap validGoal)

/-- Index of the first occurrence of a character. -/
def firstIdx (cs : List Char) (c : Char) : Option ℕ :=
  cs.findIdx? (fun x => x == c)

/-- Index of the last occurrence of a character. -/
def lastIdx (cs : List Char) (c : Char) : Option ℕ :=
  match cs.reverse.findIdx? (fun x => x == c) with
  | some i => some (cs.length - 1 - i)
  | none => none

/-- Embedding of _parse_goals_json: try a direct parse and keep it only when
it is an array; otherwise slice between the first opening bracket and the
last closing bracket and try again; anything else is a failure. -/
def parse_goals_json (raw : String) : Option (List Goal) :=
  match json_loads raw with
  | some (.arr xs) => validate_goals xs
  | _ =>
    match firstIdx raw.toList '[', lastIdx raw.toList ']' with
    | some a, some b =>
      if a < b then
        match json_loads (String.mk ((raw.toList.drop a).take (b + 1 - a))) with
        | some (.arr xs) => validate_goals xs
        | _ => none
      else none
    | _, _ => none

lemma validate_goals_ne_nil (xs : List Json) (gs : List Goal)
    (h : validate_goals xs = some gs) : gs ≠ [] := by
  unfold validate_goals at h
  split at h
  · cases h
  · rename_i hcond
    injection h with h2
    rw [← h2]
    exact hcond

lemma parse_goals_json_ne_nil (raw : String) (gs : List Goal)
    (h : parse_goals_json raw = some gs) : gs ≠ [] := by
  unfold parse_goals_json at h
  split at h
  · exact validate_goals_ne_nil _ _ h
  · split at h
    · split at h
      · split at h
        · exact validate_goals_ne_nil _ _ h
        · cases h
      · cases h
    · cases h

/-- C4 counterexample: the parser does not wrap a single JSON object into a
one-element list.  A bare object with all three keys parses as a dict, the
isinstance(list) check fails, no bracket is found, and the result is a parse
failure rather than the one-element goal list the claim promises. -/
theorem C4_goals_parsing_counterexample :
    parse_goals_json "\x7b\"goal\": \"A\", \"target\": \"B\", \"reasoning\": \"C\"\x7d" = none ∧
    parse_goals_json "\x7b\"goal\": \"A\", \"target\": \"B\", \"reasoning\": \"C\"\x7d" ≠
      some [⟨"A", "B", "C"⟩] := by
  exact ⟨by decide, by decide⟩

/-- C4 (amended): the goal parser accepts a direct JSON array, or an array
embedded in prose or markdown fences (sliced between the first opening and
last closing bracket); it keeps exactly the elements holding all three keys
goal, target, reasoning; a single JSON object is not accepted; and a parse
can never succeed with zero valid elements, so zero valid elements always
trigger the fallback. -/
theorem C4_goals_parsing (raw : String) (gs : List Goal) :
    parse_goals_json "[\x7b\"goal\": \"A\", \"target\": \"B\", \"reasoning\": \"C\"\x7d]" =
      some [⟨"A", "B", "C"⟩] ∧
    parse_goals_json
        "```json\n[\x7b\"goal\": \"A\", \"target\": \"B\", \"reasoning\": \"C\"\x7d]\n```" =
      some [⟨"A", "B", "C"⟩] ∧
    parse_goals_json
        "Here are goals: [\x7b\"goal\": \"A\", \"target\": \"B\", \"reasoning\": \"C\"\x7d] enjoy!" =
      some [⟨"A", "B", "C"⟩] ∧
    parse_goals_json "[\x7b\"goal\": \"A\", \"target\": \"B\"\x7d]" = none ∧
    parse_goals_json
        "[\x7b\"goal\": \"A\", \"target\": \"B\", \"reasoning\": \"C\"\x7d, \x7b\"goal\": \"D\"\x7d]" =
      some [⟨"A", "B", "C"⟩] ∧
    (parse_goals_json raw = some gs → gs ≠ []) := by
  refine ⟨by decide, by decide, by decide, by decide, by decide, ?_⟩
  exact parse_goals_json_ne_nil raw gs

/-- Witness for C4: the direct-array input yields a nonempty goal list. -/
theorem C4_goals_parsing_witness :
    parse_goals_json "[\x7b\"goal\": \"A\", \"target\": \"B\", \"reasoning\": \"C\"\x7d]" =
      some [⟨"A", "B", "C"⟩] ∧
    ([(⟨"A", "B", "C"⟩ : Goal)] : List Goal) ≠ [] :=
  ⟨by decide,
   (C4_goals_parsing "[\x7b\"goal\": \"A\", \"target\": \"B\", \"reasoning\": \"C\"\x7d]"
      [⟨"A", "B", "C"⟩]).2.2.2.2.2 (by decide)⟩

/-
Coaching engine, from ai_coaching_service.py: rate limiting (lines 148-156),
fallbacks (lines 368-467) and the three generation functions (lines
475-645).  The redis store is modelled by an explicit state record plus a
client descriptor: absent (the Python None client), or a client whose get /
incr / set operations each either succeed or raise.  The LLM provider is
None (unconfigured) or a generate result: ok text, or error (the call
raised).  Each generation function returns the response, the store state
after the call, and the number of provider invocations made in that call;
an uncaught exception is an Except.error result.
-/

/-- State of the per-user keys of the redis store: the daily rate counter,
the TTL set on it, and the three response caches. -/
structure RedisSt where
  counter : ℕ
  ttl : Option ℕ
  nudgeCache : Option String
  goalsCache : Option String
  summaryCache : Option String
deriving DecidableEq

/-- The redis client handed to the service: None, or a client whose three
operations each succeed or raise. -/
inductive RedisClient where
  | absent
  | client (getOk incrOk setOk : Bool)
deriving DecidableEq

/-- Embedding of _check_rate_limit: incr the daily key (raising if the store
is down), set a 24h expiry when the incremented value is 1, and report
whether the count is within the limit. -/
def check_rate_limit (incrOk : Bool) (limit : ℕ) (st : RedisSt) :
    Except Unit (Bool × RedisSt) :=
  if incrOk then
    Except.ok (decide (st.counter + 1 ≤ limit),
      { st with counter := st.counter + 1,
                ttl := if st.counter + 1 = 1 then some 86400 else st.ttl })
  else Except.error ()

/-- Aggregates returned by _get_user_patterns. -/
structure Patterns where
  avg_daily_focus_min : ℚ
  peak_hour : ℕ
  top_distractor : String
  streak_days : ℕ
deriving DecidableEq

/-- Aggregates returned by _get_trend_data. -/
structure TrendData where
  avg_daily_focus_min : ℚ
  avg_sessions_per_day : ℚ
  avg_focus_ratio : ℚ
  distraction_trend : String
deriving DecidableEq

/-- Aggregates returned by _get_session_data for a found session. -/
structure SessData where
  duration_minutes : ℚ
  focused_minutes : ℚ
  distraction_count : ℕ
  tasks_completed : ℕ
deriving DecidableEq

/-- Embedding of _fallback_session_summary. -/
def fallback_session_summary (duration_min focused_min : ℚ)
    (distractions tasks_completed : ℕ) : String :=
  ((("You completed a " ++
      (if (9 : ℚ) / 10 ≤ (if 0 < duration_min then focused_min / duration_min else 0)
        then "excellent"
        else if (3 : ℚ) / 4 ≤ (if 0 < duration_min then focused_min / duration_min else 0)
        then "solid"
        else if (1 : ℚ) / 2 ≤ (if 0 < duration_min then focused_min / duration_min else 0)
        then "decent"
        else "challenging") ++
      " " ++ fmt0 duration_min ++ "-minute session with " ++ fmt0 focused_min ++
      " minutes of focused work.") ++
    (if 0 < tasks_completed then
      " You finished " ++ toString tasks_completed ++ " task" ++
        (if 1 < tasks_completed then "s" else "") ++ "!"
     else "")) ++
   (if distractions = 0 then " Zero distractions — impressive discipline!"
    else if distractions ≤ 2 then
      " Only " ++ toString distractions ++ " distraction" ++
        (if 1 < distractions then "s" else "") ++ " — keep that focus strong."
    else
      " You had " ++ toString distractions ++
        " distractions. Try closing unnecessary apps before your next session."))

/-- Embedding of _fallback_nudge. -/
def fallback_nudge (avg_focus_min : ℚ) (peak_hour : ℕ)
    (top_distractor : String) : String :=
  if avg_focus_min < 30 then
    "Try scheduling a 25-minute focus session around " ++ toString peak_hour ++
      ":00 today — that\x27s when you tend to do your best work."
  else if top_distractor ≠ "" ∧ top_distractor ≠ "none" then
    "Consider blocking " ++ top_distractor ++
      " during your next session. Your peak focus time is around " ++
      toString peak_hour ++ ":00."
  else
    "You\x27re averaging " ++ fmt0 avg_focus_min ++
      " minutes of focus daily. Push for 10% more today and build on your momentum!"

set_option linter.unusedVariables false in
/-- Embedding of _fallback_goals.  The avg_focus_ratio parameter is part of
the source signature but unused by its body. -/
def fallback_goals (avg_daily_focus_min avg_sessions_per_day avg_focus_ratio : ℚ) :
    List Goal :=
  [⟨"Focus for " ++ toString (max 30 (roundHalfEven (avg_daily_focus_min * (11 / 10)))) ++
      " minutes daily",
    toString (max 30 (roundHalfEven (avg_daily_focus_min * (11 / 10)))) ++ " min/day",
    "You currently average " ++ fmt0 avg_daily_focus_min ++
      " minutes. A 10% increase is achievable and builds consistency."⟩,
   ⟨"Complete " ++ toString (max 2 (roundHalfEven (avg_sessions_per_day * (11 / 10)))) ++
      " focus sessions daily",
    toString (max 2 (roundHalfEven (avg_sessions_per_day * (11 / 10)))) ++ " sessions/day",
    "You average " ++ fmt1 avg_sessions_per_day ++
      " sessions. Adding one more builds the habit."⟩,
   ⟨"Maintain a 3-day focus streak", "3 consecutive days",
    "Streaks reinforce habits. Start with 3 days and extend from there."⟩]

/-- Escape the characters json.dumps escapes in the inputs modelled here. -/
def jsonEsc : List Char → String
  | [] => ""
  | c :: cs =>
    (if c = '"' || c = '\\' then String.mk ['\\', c] else String.singleton c) ++
      jsonEsc cs

mutual

/-- Model of json.dumps on a decoded value. -/
def jsonDump : Json → String
  | .null => "null"
  | .bool true => "true"
  | .bool false => "false"
  | .num n => toString n
  | .str s => "\"" ++ jsonEsc s.toList ++ "\""
  | .arr xs => "[" ++ jsonDumpList xs ++ "]"
  | .obj kvs => String.singleton lbrace ++ jsonDumpObj kvs ++ String.singleton rbrace

/-- Comma-joined dump of array elements. -/
def jsonDumpList : List Json → String
  | [] => ""
  | [x] => jsonDump x
  | x :: y :: xs => jsonDump x ++ ", " ++ jsonDumpList (y :: xs)

/-- Comma-joined dump of object members. -/
def jsonDumpObj : List (String × Json) → String
  | [] => ""
  | [(k, v)] => "\"" ++ jsonEsc k.toList ++ "\": " ++ jsonDump v
  | (k, v) :: m :: kvs =>
    "\"" ++ jsonEsc k.toList ++ "\": " ++ jsonDump v ++ ", " ++ jsonDumpObj (m :: kvs)

end

/-- The JSON value of a validated goal list (what the service caches and
returns for goals). -/
def goalsToJson (gs : List Goal) : Json :=
  .arr (gs.map (fun g => .obj
    [("goal", .str g.goal), ("target", .str g.target), ("reasoning", .str g.reasoning)]))

/-- Response of generate_coaching_nudge. -/
structure NudgeRes where
  nudge : String
  is_ai_generated : Bool
deriving DecidableEq

/-- Response of generate_session_summary. -/
structure SummaryRes where
  summary : String
  is_ai_generated : Bool
deriving DecidableEq

/-- Response of generate_goal_suggestions; goals is the decoded JSON value
(the cached value on a cache hit, the validated or fallback goals else). -/
structure GoalsRes where
  goals : Json
  is_ai_generated : Bool

/-- Try-block of generate_coaching_nudge: call the provider, cache the text
for 1h and return it AI-flagged; any exception in the block (a provider
raise, or a raise of the cache write) is caught and falls through to the
fallback, which is never cached. -/
def nudgeTryLLM (p : Patterns) (provider : Option (Except Unit String))
    (redis : RedisClient) (st : RedisSt) : NudgeRes × RedisSt × ℕ :=
  match provider with
  | none =>
    (⟨fallback_nudge p.avg_daily_focus_min p.peak_hour p.top_distractor, false⟩, st, 0)
  | some (Except.error _) =>
    (⟨fallback_nudge p.avg_daily_focus_min p.peak_hour p.top_distractor, false⟩, st, 1)
  | some (Except.ok t) =>
    match redis with
    | .absent => (⟨t, true⟩, st, 1)
    | .client _ _ setOk =>
      if setOk then (⟨t, true⟩, { st with nudgeCache := some t }, 1)
      else
        (⟨fallback_nudge p.avg_daily_focus_min p.peak_hour p.top_distractor, false⟩,
         st, 1)

/-- Rate-limit step of generate_coaching_nudge, after the cache check. -/
def nudgeAfterCache (p : Patterns) (provider : Option (Except Unit String))
    (redis : RedisClient) (st : RedisSt) : Except Unit (NudgeRes × RedisSt × ℕ) :=
  match redis with
  | .absent => Except.ok (nudgeTryLLM p provider .absent st)
  | .client g i s =>
    match check_rate_limit i 20 st with
    | Except.error e => Except.error e
    | Except.ok (within, st2) =>
      if within then Except.ok (nudgeTryLLM p provider (.client g i s) st2)
      else
        Except.ok
          (⟨fallback_nudge p.avg_daily_focus_min p.peak_hour p.top_distractor, false⟩,
           st2, 0)

/-- Embedding of generate_coaching_nudge: cache check (a present non-empty
entry is returned AI-flagged, with the raise of a failed get propagating),
then rate limit, then provider with fallback. -/
def generate_coaching_nudge (p : Patterns) (provider : Option (Except Unit String))
    (redis : RedisClient) (st : RedisSt) : Except Unit (NudgeRes × RedisSt × ℕ) :=
  match redis with
  | .absent => nudgeAfterCache p provider .absent st
  | .client g i s =>
    if g then
      match st.nudgeCache with
      | some cached =>
        if cached = "" then nudgeAfterCache p provider (.client g i s) st
        else Except.ok (⟨cached, true⟩, st, 0)
      | none => nudgeAfterCache p provider (.client g i s) st
    else Except.error ()

/-- Try-block of generate_goal_suggestions: call the provider, parse the
response; on a valid parse cache the dump for 24h and return AI-flagged; a
provider raise, a parse failure, or a cache-write raise falls through to the
fallback, which is never cached. -/
def goalsTryLLM (tr : TrendData) (provider : Option (Except Unit String))
    (redis : RedisClient) (st : RedisSt) : GoalsRes × RedisSt × ℕ :=
  match provider with
  | none =>
    (⟨goalsToJson (fallback_goals tr.avg_daily_focus_min tr.avg_sessions_per_day
        tr.avg_focus_ratio), false⟩, st, 0)
  | some (Except.error _) =>
    (⟨goalsToJson (fallback_goals tr.avg_daily_focus_min tr.avg_sessions_per_day
        tr.avg_focus_ratio), false⟩, st, 1)
  | some (Except.ok raw) =>
    match parse_goals_json raw with
    | some gs =>
      match redis with
      | .absent => (⟨goalsToJson gs, true⟩, st, 1)
      | .client _ _ setOk =>
        if setOk then
          (⟨goalsToJson gs, true⟩,
           { st with goalsCache := some (jsonDump (goalsToJson gs)) }, 1)
        else
          (⟨goalsToJson (fallback_goals tr.avg_daily_focus_min tr.avg_sessions_per_day
              tr.avg_focus_ratio), false⟩, st, 1)
    | none =>
      (⟨goalsToJson (fallback_goals tr.avg_daily_focus_min tr.avg_sessions_per_day
          tr.avg_focus_ratio), false⟩, st, 1)

/-- Rate-limit step of generate_goal_suggestions, after the cache check. -/
def goalsAfterCache (tr : TrendData) (provider : Option (Except Unit String))
    (redis : RedisClient) (st : RedisSt) : Except Unit (GoalsRes × RedisSt × ℕ) :=
  match redis with
  | .absent => Except.ok (goalsTryLLM tr provider .absent st)
  | .client g i s =>
    match check_rate_limit i 20 st with
    | Except.error e => Except.error e
    | Except.ok (within, st2) =>
      if within then Except.ok (goalsTryLLM tr provider (.client g i s) st2)
      else
        Except.ok
          (⟨goalsToJson (fallback_goals tr.avg_daily_focus_min tr.avg_sessions_per_day
              tr.avg_focus_ratio), false⟩, st2, 0)

/-- Embedding of generate_goal_suggestions: cache check (a present non-empty
entry that decodes as JSON is returned AI-flagged; a JSONDecodeError falls
through to generation), then rate limit, then provider with fallback. -/
def generate_goal_suggestions (tr : TrendData) (provider : Option (Except Unit String))
    (redis : RedisClient) (st : RedisSt) : Except Unit (GoalsRes × RedisSt × ℕ) :=
  match redis with
  | .absent => goalsAfterCache tr provider .absent st
  | .client g i s =>
    if g then
      match st.goalsCache with
      | some cached =>
        if cached = "" then goalsAfterCache tr provider (.client g i s) st
        else
          match json_loads cached with
          | some j => Except.ok (⟨j, true⟩, st, 0)
          | none => goalsAfterCache tr provider (.client g i s) st
      | none => goalsAfterCache tr provider (.client g i s) st
    else Except.error ()

/-- Try-block of generate_session_summary: call the provider, cache the text
for 24h (write-only cache) and return it AI-flagged; a provider raise or a
cache-write raise falls through to the fallback. -/
def summaryTryLLM (d : SessData) (provider : Option (Except Unit String))
    (redis : RedisClient) (st : RedisSt) : SummaryRes × RedisSt × ℕ :=
  match provider with
  | none =>
    (⟨fallback_session_summary d.duration_minutes d.focused_minutes
        d.distraction_count d.tasks_completed, false⟩, st, 0)
  | some (Except.error _) =>
    (⟨fallback_session_summary d.duration_minutes d.focused_minutes
        d.distraction_count d.tasks_completed, false⟩, st, 1)
  | some (Except.ok t) =>
    match redis with
    | .absent => (⟨t, true⟩, st, 1)
    | .client _ _ setOk =>
      if setOk then (⟨t, true⟩, { st with summaryCache := some t }, 1)
      else
        (⟨fallback_session_summary d.duration_minutes d.focused_minutes
            d.distraction_count d.tasks_completed, false⟩, st, 1)

/-- Embedding of generate_session_summary: a missing session returns the
not-found response before any store access; then rate limit (no cache
read), then provider with fallback. -/
def generate_session_summary (sd : Option SessData)
    (provider : Option (Except Unit String)) (redis : RedisClient)
    (st : RedisSt) : Except Unit (SummaryRes × RedisSt × ℕ) :=
  match sd with
  | none => Except.ok (⟨"Session not found.", false⟩, st, 0)
  | some d =>
    match redis with
    | .absent => Except.ok (summaryTryLLM d provider .absent st)
    | .client g i s =>
      match check_rate_limit i 20 st with
      | Except.error e => Except.error e
      | Except.ok (within, st2) =>
        if within then Except.ok (summaryTryLLM d provider (.client g i s) st2)
        else
          Except.ok
            (⟨fallback_session_summary d.duration_minutes d.focused_minutes
                d.distraction_count d.tasks_completed, false⟩, st2, 0)

/-- State of the store after one rate-limit check: counter incremented, TTL
set to 24h on the first increment, caches untouched. -/
def rlState (st : RedisSt) : RedisSt :=
  { st with counter := st.counter + 1,
            ttl := if st.counter + 1 = 1 then some 86400 else st.ttl }

/-- Whether an Except value is a normal result. -/
def isOkE {α : Type} : Except Unit α → Bool
  | Except.ok _ => true
  | Except.error _ => false

instance exceptUnitDecEq {α : Type} [DecidableEq α] : DecidableEq (Except Unit α) :=
  fun a b =>
    match a, b with
    | Except.ok x, Except.ok y =>
      if h : x = y then isTrue (by rw [h]) else
        isFalse (fun hc => h (by injection hc))
    | Except.error x, Except.error y => isTrue (by cases x; cases y; rfl)
    | Except.ok _, Except.error _ => isFalse (fun hc => Except.noConfusion hc)
    | Except.error _, Except.ok _ => isFalse (fun hc => Except.noConfusion hc)

lemma nudgeTryLLM_frame (p : Patterns) (provider : Option (Except Unit String))
    (redis : RedisClient) (st : RedisSt) :
    (nudgeTryLLM p provider redis st).2.1.counter = st.counter ∧
    (nudgeTryLLM p provider redis st).2.1.ttl = st.ttl ∧
    (nudgeTryLLM p provider redis st).2.2 ≤ 1 := by
  rcases provider with _ | ex
  · simp [nudgeTryLLM]
  · cases ex with
    | error e => simp [nudgeTryLLM]
    | ok t =>
      rcases redis with _ | ⟨g, i, s⟩
      · simp [nudgeTryLLM]
      · cases s <;> simp [nudgeTryLLM]

/-- C6: with a functioning store, a nudge request that is not a cache hit
increments the per-user daily counter; the 24-hour expiry is set on the
first increment of the day; with the default limit 20, an attempt that
starts at a counter of at least 20 (such as the 21st attempt of the day)
returns the rule-based fallback with zero provider invocations; and the
provider is only ever consulted when the counter was below 20. -/
theorem C6_daily_rate_limit (p : Patterns) (provider : Option (Except Unit String))
    (st : RedisSt) (r : NudgeRes) (st2 : RedisSt) (n : ℕ)
    (hmiss : st.nudgeCache = none ∨ st.nudgeCache = some "")
    (h : generate_coaching_nudge p provider (.client true true true) st =
      Except.ok (r, st2, n)) :
    st2.counter = st.counter + 1 ∧
    (st.counter = 0 → st2.ttl = some 86400) ∧
    (20 ≤ st.counter →
      r = ⟨fallback_nudge p.avg_daily_focus_min p.peak_hour p.top_distractor, false⟩ ∧
      n = 0) ∧
    (0 < n → st.counter < 20) := by
  have hac : nudgeAfterCache p provider (.client true true true) st =
      Except.ok (r, st2, n) := by
    rcases hmiss with hm | hm
    · simpa [generate_coaching_nudge, hm] using h
    · simpa [generate_coaching_nudge, hm] using h
  unfold nudgeAfterCache check_rate_limit at hac
  simp only [if_true, decide_eq_true_eq] at hac
  have hfold : ({ st with counter := st.counter + 1,
                          ttl := if st.counter + 1 = 1 then some 86400
                                 else st.ttl } : RedisSt) = rlState st := rfl
  rw [hfold] at hac
  by_cases hlim : st.counter + 1 ≤ 20
  · rw [if_pos hlim] at hac
    simp only [Except.ok.injEq] at hac
    obtain ⟨hfr, hft, hfn⟩ := nudgeTryLLM_frame p provider (.client true true true) (rlState st)
    have hst2 : st2 = (nudgeTryLLM p provider (.client true true true) (rlState st)).2.1 := by
      rw [hac]
    have hn : n = (nudgeTryLLM p provider (.client true true true) (rlState st)).2.2 := by
      rw [hac]
    refine ⟨?_, ?_, ?_, ?_⟩
    · rw [hst2, hfr]
      rfl
    · intro h0
      rw [hst2, hft]
      show (if st.counter + 1 = 1 then some 86400 else st.ttl) = some 86400
      rw [h0]
      rfl
    · intro hge
      omega
    · intro _
      omega
  · rw [if_neg hlim] at hac
    simp only [Except.ok.injEq, Prod.mk.injEq] at hac
    have hr : r = ⟨fallback_nudge p.avg_daily_focus_min p.peak_hour p.top_distractor,
        false⟩ := hac.1.symm
    have hst2 : st2 = rlState st := hac.2.1.symm
    have hn : n = 0 := hac.2.2.symm
    refine ⟨?_, ?_, fun _ => ⟨hr, hn⟩, ?_⟩
    · rw [hst2]
      rfl
    · intro h0
      omega
    · intro hpos
      omega

/-- Witness for C6: the 21st attempt of the day with a configured provider
gets the fallback, zero provider invocations, and an incremented counter. -/
theorem C6_daily_rate_limit_witness :
    (21 : ℕ) = 20 + 1 ∧
    ((⟨fallback_nudge 0 9 "none", false⟩ : NudgeRes) =
      ⟨fallback_nudge 0 9 "none", false⟩ ∧ (0 : ℕ) = 0) :=
  have happ := C6_daily_rate_limit ⟨0, 9, "none", 0⟩ (some (Except.ok "hi"))
    ⟨20, some 86400, none, none, none⟩ ⟨fallback_nudge 0 9 "none", false⟩
    ⟨21, some 86400, none, none, none⟩ 0 (Or.inl rfl) (by rfl)
  ⟨happ.1, happ.2.2.1 (by decide)⟩

/-- C7 counterexample: a cache entry that is the empty string exists in the
store, yet the nudge call treats it as a miss (Python truthiness), consumes
the rate limit (counter 0 becomes 1) and returns the fallback flagged
not-AI-generated instead of the cached value flagged true. -/
theorem C7_cache_hit_counterexample :
    generate_coaching_nudge ⟨0, 9, "none", 0⟩ none (.client true true true)
        ⟨0, none, some "", none, none⟩ =
      Except.ok (⟨fallback_nudge 0 9 "none", false⟩,
        ⟨1, some 86400, some "", none, none⟩, 0) ∧
    generate_coaching_nudge ⟨0, 9, "none", 0⟩ none (.client true true true)
        ⟨0, none, some "", none, none⟩ ≠
      Except.ok (⟨"", true⟩, ⟨0, none, some "", none, none⟩, 0) :=
  ⟨by rfl, by decide⟩

/-- C7 (amended): a non-empty cached nudge, and a non-empty cached goals
entry that decodes as JSON, short-circuit generation: the cached value is
returned flagged AI-generated, the store state is unchanged (the counter in
particular), and the provider is not invoked. -/
theorem C7_cache_hit_short_circuit (st : RedisSt) (c cg : String) (j : Json)
    (p : Patterns) (tr : TrendData) (provider : Option (Except Unit String))
    (i s : Bool) :
    (st.nudgeCache = some c → c ≠ "" →
      generate_coaching_nudge p provider (.client true i s) st =
        Except.ok (⟨c, true⟩, st, 0)) ∧
    (st.goalsCache = some cg → cg ≠ "" → json_loads cg = some j →
      generate_goal_suggestions tr provider (.client true i s) st =
        Except.ok (⟨j, true⟩, st, 0)) := by
  constructor
  · intro h1 h2
    simp only [generate_coaching_nudge, h1, if_true]
    rw [if_neg h2]
  · intro h1 h2 h3
    simp only [generate_goal_suggestions, h1, if_true]
    rw [if_neg h2, h3]

/-- Witness for C7: concrete cached entries are returned unchanged. -/
theorem C7_cache_hit_short_circuit_witness :
    generate_coaching_nudge ⟨0, 9, "none", 0⟩ none (.client true true true)
        ⟨5, none, some "hi", some "[1]", none⟩ =
      Except.ok (⟨"hi", true⟩, ⟨5, none, some "hi", some "[1]", none⟩, 0) ∧
    generate_goal_suggestions ⟨0, 0, 0, "no data"⟩ none (.client true true true)
        ⟨5, none, some "hi", some "[1]", none⟩ =
      Except.ok (⟨Json.arr [Json.num 1], true⟩,
        ⟨5, none, some "hi", some "[1]", none⟩, 0) :=
  ⟨(C7_cache_hit_short_circuit ⟨5, none, some "hi", some "[1]", none⟩ "hi" "[1]"
      (Json.arr [Json.num 1]) ⟨0, 9, "none", 0⟩ ⟨0, 0, 0, "no data"⟩ none
      true true).1 rfl (by decide),
   (C7_cache_hit_short_circuit ⟨5, none, some "hi", some "[1]", none⟩ "hi" "[1]"
      (Json.arr [Json.num 1]) ⟨0, 9, "none", 0⟩ ⟨0, 0, 0, "no data"⟩ none
      true true).2 rfl (by decide) (by rfl)⟩

/-- C8: when the provider raises (or, for goals, the response fails JSON
validation), each coaching function catches the failure and returns its
deterministic rule-based fallback flagged not-AI-generated as a normal
result — no exception escapes — and the fallback is not written to any
cache: the state after the call is exactly the rate-limited state, whose
cache slots equal the original ones. -/
theorem C8_provider_failure_falls_back (d : SessData) (p : Patterns)
    (tr : TrendData) (st : RedisSt) (raw : String)
    (hmiss : st.nudgeCache = none ∨ st.nudgeCache = some "")
    (hgmiss : st.goalsCache = none ∨ st.goalsCache = some "")
    (hparse : parse_goals_json raw = none)
    (hlim : st.counter < 20) :
    generate_session_summary (some d) (some (Except.error ()))
        (.client true true true) st =
      Except.ok (⟨fallback_session_summary d.duration_minutes d.focused_minutes
          d.distraction_count d.tasks_completed, false⟩, rlState st, 1) ∧
    generate_coaching_nudge p (some (Except.error ()))
        (.client true true true) st =
      Except.ok (⟨fallback_nudge p.avg_daily_focus_min p.peak_hour
          p.top_distractor, false⟩, rlState st, 1) ∧
    generate_goal_suggestions tr (some (Except.error ()))
        (.client true true true) st =
      Except.ok (⟨goalsToJson (fallback_goals tr.avg_daily_focus_min
          tr.avg_sessions_per_day tr.avg_focus_ratio), false⟩, rlState st, 1) ∧
    generate_goal_suggestions tr (some (Except.ok raw))
        (.client true true true) st =
      Except.ok (⟨goalsToJson (fallback_goals tr.avg_daily_focus_min
          tr.avg_sessions_per_day tr.avg_focus_ratio), false⟩, rlState st, 1) ∧
    (rlState st).nudgeCache = st.nudgeCache ∧
    (rlState st).goalsCache = st.goalsCache ∧
    (rlState st).summaryCache = st.summaryCache := by
  have hdec : st.counter + 1 ≤ 20 := by omega
  have hfold : ({ st with counter := st.counter + 1,
                          ttl := if st.counter + 1 = 1 then some 86400
                                 else st.ttl } : RedisSt) = rlState st := rfl
  refine ⟨?_, ?_, ?_, ?_, rfl, rfl, rfl⟩
  · unfold generate_session_summary check_rate_limit
    simp only [if_true, decide_eq_true_eq, hfold]
    rw [if_pos hdec]
    rfl
  · have hac : generate_coaching_nudge p (some (Except.error ()))
        (.client true true true) st =
        nudgeAfterCache p (some (Except.error ())) (.client true true true) st := by
      rcases hmiss with hm | hm <;> simp [generate_coaching_nudge, hm]
    rw [hac]
    unfold nudgeAfterCache check_rate_limit
    simp only [if_true, decide_eq_true_eq, hfold]
    rw [if_pos hdec]
    rfl
  · have hac : generate_goal_suggestions tr (some (Except.error ()))
        (.client true true true) st =
        goalsAfterCache tr (some (Except.error ())) (.client true true true) st := by
      rcases hgmiss with hm | hm <;> simp [generate_goal_suggestions, hm]
    rw [hac]
    unfold goalsAfterCache check_rate_limit
    simp only [if_true, decide_eq_true_eq, hfold]
    rw [if_pos hdec]
    rfl
  · have hac : generate_goal_suggestions tr (some (Except.ok raw))
        (.client true true true) st =
        goalsAfterCache tr (some (Except.ok raw)) (.client true true true) st := by
      rcases hgmiss with hm | hm <;> simp [generate_goal_suggestions, hm]
    rw [hac]
    unfold goalsAfterCache check_rate_limit
    simp only [if_true, decide_eq_true_eq, hfold]
    rw [if_pos hdec]
    simp only [goalsTryLLM]
    rw [hparse]

/-- Witness for C8: a concrete raising provider yields the fallback summary
as a normal result and leaves the summary cache untouched. -/
theorem C8_provider_failure_falls_back_witness :
    generate_session_summary (some ⟨25, 20, 1, 0⟩) (some (Except.error ()))
        (.client true true true) ⟨0, none, none, none, none⟩ =
      Except.ok (⟨fallback_session_summary 25 20 1 0, false⟩,
        rlState ⟨0, none, none, none, none⟩, 1) ∧
    (rlState ⟨0, none, none, none, none⟩).summaryCache =
      (⟨0, none, none, none, none⟩ : RedisSt).summaryCache :=
  have happ := C8_provider_failure_falls_back ⟨25, 20, 1, 0⟩ ⟨0, 9, "none", 0⟩
    ⟨0, 0, 0, "no data"⟩ ⟨0, none, none, none, none⟩ "nope"
    (Or.inl rfl) (Or.inl rfl) (by decide) (by decide)
  ⟨happ.1, happ.2.2.2.2.2.2⟩

/-- C9 counterexample: when the store client is present but its operations
raise (store unreachable), the cache read of the nudge and goals calls and
the counter increment of the summary call are outside any try block, so the
exception propagates to the caller instead of failing open. -/
theorem C9_store_failure_counterexample :
    generate_coaching_nudge ⟨0, 9, "none", 0⟩ none (.client false false false)
        ⟨0, none, none, none, none⟩ = Except.error () ∧
    generate_goal_suggestions ⟨0, 0, 0, "no data"⟩ none (.client false false false)
        ⟨0, none, none, none, none⟩ = Except.error () ∧
    generate_session_summary (some ⟨25, 20, 1, 0⟩) none (.client true false true)
        ⟨0, none, none, none, none⟩ = Except.error () :=
  ⟨rfl, rfl, rfl⟩

/-- C9 (amended): fail-open holds when the store client is absent — every
coaching function returns a normal, well-formed response, leaves the state
untouched and consults the provider exactly when one is configured, as if
no cache and no rate limit existed; but when a client is present and its
operations raise, the exception propagates to the caller. -/
theorem C9_fail_open_absent_client (p : Patterns) (tr : TrendData) (d : SessData)
    (provider : Option (Except Unit String)) (st : RedisSt) (i s : Bool) :
    (∀ r st2 n, generate_coaching_nudge p provider .absent st =
        Except.ok (r, st2, n) →
      st2 = st ∧ n = (if provider.isSome then 1 else 0)) ∧
    isOkE (generate_coaching_nudge p provider .absent st) = true ∧
    (∀ r st2 n, generate_goal_suggestions tr provider .absent st =
        Except.ok (r, st2, n) →
      st2 = st ∧ n = (if provider.isSome then 1 else 0)) ∧
    isOkE (generate_goal_suggestions tr provider .absent st) = true ∧
    (∀ r st2 n, generate_session_summary (some d) provider .absent st =
        Except.ok (r, st2, n) →
      st2 = st ∧ n = (if provider.isSome then 1 else 0)) ∧
    isOkE (generate_session_summary (some d) provider .absent st) = true ∧
    generate_coaching_nudge p provider (.client false i s) st =
      Except.error () ∧
    generate_goal_suggestions tr provider (.client false i s) st =
      Except.error () ∧
    generate_session_summary (some d) provider (.client i false s) st =
      Except.error () := by
  refine ⟨?_, ?_, ?_, ?_, ?_, ?_, rfl, rfl, ?_⟩
  · intro r st2 n h
    rcases provider with _ | ex
    · simp only [generate_coaching_nudge, nudgeAfterCache, nudgeTryLLM,
        Except.ok.injEq, Prod.mk.injEq] at h
      exact ⟨h.2.1.symm, h.2.2.symm⟩
    · cases ex with
      | error e =>
        simp only [generate_coaching_nudge, nudgeAfterCache, nudgeTryLLM,
          Except.ok.injEq, Prod.mk.injEq] at h
        exact ⟨h.2.1.symm, h.2.2.symm⟩
      | ok t =>
        simp only [generate_coaching_nudge, nudgeAfterCache, nudgeTryLLM,
          Except.ok.injEq, Prod.mk.injEq] at h
        exact ⟨h.2.1.symm, h.2.2.symm⟩
  · rcases provider with _ | ex
    · rfl
    · cases ex with
      | error e => rfl
      | ok t => rfl
  · intro r st2 n h
    rcases provider with _ | ex
    · simp only [generate_goal_suggestions, goalsAfterCache, goalsTryLLM,
        Except.ok.injEq, Prod.mk.injEq] at h
      exact ⟨h.2.1.symm, h.2.2.symm⟩
    · cases ex with
      | error e =>
        simp only [generate_goal_suggestions, goalsAfterCache, goalsTryLLM,
          Except.ok.injEq, Prod.mk.injEq] at h
        exact ⟨h.2.1.symm, h.2.2.symm⟩
      | ok raw =>
        simp only [generate_goal_suggestions, goalsAfterCache, goalsTryLLM] at h
        cases hp : parse_goals_json raw with
        | some gs =>
          rw [hp] at h
          simp only [Except.ok.injEq, Prod.mk.injEq] at h
          exact ⟨h.2.1.symm, h.2.2.symm⟩
        | none =>
          rw [hp] at h
          simp only [Except.ok.injEq, Prod.mk.injEq] at h
          exact ⟨h.2.1.symm, h.2.2.symm⟩
  · rcases provider with _ | ex
    · rfl
    · cases ex with
      | error e => rfl
      | ok raw =>
        simp only [generate_goal_suggestions, goalsAfterCache, goalsTryLLM]
        cases hp : parse_goals_json raw <;> rfl
  · intro r st2 n h
    rcases provider with _ | ex
    · simp only [generate_session_summary, summaryTryLLM,
        Except.ok.injEq, Prod.mk.injEq] at h
      exact ⟨h.2.1.symm, h.2.2.symm⟩
    · cases ex with
      | error e =>
        simp only [generate_session_summary, summaryTryLLM,
          Except.ok.injEq, Prod.mk.injEq] at h
        exact ⟨h.2.1.symm, h.2.2.symm⟩
      | ok t =>
        simp only [generate_session_summary, summaryTryLLM,
          Except.ok.injEq, Prod.mk.injEq] at h
        exact ⟨h.2.1.symm, h.2.2.symm⟩
  · rcases provider with _ | ex
    · rfl
    · cases ex with
      | error e => rfl
      | ok t => rfl
  · rfl

/-- Witness for C9: with no store client, a concrete nudge call returns
normally, leaves the state unchanged and makes no provider call. -/
theorem C9_fail_open_absent_client_witness :
    (⟨3, none, none, none, none⟩ : RedisSt) = ⟨3, none, none, none, none⟩ ∧
    (0 : ℕ) = (if (none : Option (Except Unit String)).isSome then 1 else 0) :=
  (C9_fail_open_absent_client ⟨0, 9, "none", 0⟩ ⟨0, 0, 0, "no data"⟩
      ⟨25, 20, 1, 0⟩ none ⟨3, none, none, none, none⟩ true true).1
    ⟨fallback_nudge 0 9 "none", false⟩ ⟨3, none, none, none, none⟩ 0 (by rfl)
